import Mathlib

/-!
Shallow embedding of the veryfiable_service repository: the EAS schema
registration script (`src/scripts/register-schema.js`) and the Express
server module (`src/unnamed/part_001`), together with proofs of the
specification's claims about them.

JavaScript values that may be `undefined` are embedded as `Option`;
JavaScript truthiness on such string values is made explicit (`jsTruthy`);
thrown errors are embedded as `Except.error`.
-/

/-! ## JavaScript string primitives used by the source -/

/-- List-of-characters version of JavaScript `String.prototype.startsWith`:
`listStartsWith s pat` holds when `pat` is an initial segment of `s`. -/
def listStartsWith : List Char → List Char → Bool
  | _, [] => true
  | [], _ :: _ => false
  | a :: as, b :: bs => if a = b then listStartsWith as bs else false

/-- List-of-characters version of JavaScript `String.prototype.includes`:
`listHasSub s pat` holds when `pat` occurs contiguously somewhere in `s`. -/
def listHasSub : List Char → List Char → Bool
  | [], pat => pat.isEmpty
  | c :: rest, pat => listStartsWith (c :: rest) pat || listHasSub rest pat

/-- JavaScript `s.includes(pat)` on strings. -/
def strIncludes (s pat : String) : Bool :=
  listHasSub s.data pat.data

/-- JavaScript `s.startsWith(pre)` on strings. -/
def strStarts (s pre : String) : Bool :=
  listStartsWith s.data pre.data

/-- JavaScript truthiness of a possibly-undefined string value: `undefined`
(embedded as `none`) and the empty string are falsy; every other string is
truthy. -/
def jsTruthy : Option String → Bool
  | none => false
  | some s => decide (s ≠ "")

/-- JavaScript `a || b` on possibly-undefined string values: the left operand
when it is truthy, otherwise the right operand. -/
def jsOrStr (a b : Option String) : Option String :=
  if jsTruthy a then a else b

/-- JavaScript `Array.prototype.join(", ")` on a list of strings. -/
def joinComma : List String → String
  | [] => ""
  | [s] => s
  | s :: rest => s ++ ", " ++ joinComma rest

/-- JavaScript template interpolation of a possibly-undefined string value:
an `undefined` value prints as the text `undefined`. -/
def jsInterpolate : Option String → String
  | none => "undefined"
  | some s => s

/-! ## The Express server module (src/unnamed/part_001) -/

/-- JSON body produced by the health route of the server module. The source
writes `status`, `database`, `version`, `timestamp`, and (only on the error
path) `error`. -/
structure HealthBody where
  status : String
  database : String
  version : String
  timestamp : String
  error : Option String
deriving Repr, DecidableEq

/-- An HTTP response of the server module: the numeric status set with
`res.status(...)` and the JSON body. -/
structure HttpResponse where
  status : Nat
  body : HealthBody
deriving Repr, DecidableEq

/-- Embedding of the `GET /api/v1/health` handler (src/unnamed/part_001 lines
36–55). The outcome of `await testConnection()` is passed in as an
`Except String Bool`: `Except.ok b` when the check resolves with the boolean
`b`, `Except.error e` when it throws an error with message `e`. The
timestamp `new Date().toISOString()` is passed in as `now`. -/
def healthHandler (now : String) (dbCheck : Except String Bool) : HttpResponse :=
  match dbCheck with
  | Except.ok dbConnected =>
      { status := 200,
        body := { status := "healthy",
                  database := if dbConnected then "connected" else "disconnected",
                  version := "0.1.0", timestamp := now, error := none } }
  | Except.error e =>
      { status := 503,
        body := { status := "unhealthy", database := "disconnected",
                  version := "0.1.0", timestamp := now, error := some e } }

/-- Identifiers bound at the top level of the server module
(src/unnamed/part_001): the four `require` results, the destructured
`testConnection`, `app`, and `PORT`. The return value of `app.listen` on
line 98 is not bound to any name. -/
def serverModuleTopLevelNames : List String :=
  ["express", "cors", "morgan", "dotenv", "testConnection", "app", "PORT"]

/-- Embedding of the SIGTERM handler body (src/unnamed/part_001 lines
106–111): after logging, it evaluates the identifier `server` and calls its
`close` method. Identifier resolution over the module's top-level scope: an
identifier bound in scope evaluates normally, an unbound identifier raises a
ReferenceError. -/
def sigtermHandlerRun : Except String Unit :=
  if "server" ∈ serverModuleTopLevelNames then Except.ok ()
  else Except.error "ReferenceError: server is not defined"

/-! ## Registration script: environment validation
(src/scripts/register-schema.js, `validateEnvironment`, lines 57–105) -/

/-- Hexadecimal digit, as the character class `[0-9a-fA-F]` of the source's
regular expressions. -/
def isHexChar (c : Char) : Bool :=
  (decide ('0' ≤ c) && decide (c ≤ '9')) ||
  (decide ('a' ≤ c) && decide (c ≤ 'f')) ||
  (decide ('A' ≤ c) && decide (c ≤ 'F'))

/-- Sixty-four hexadecimal characters, as `[0-9a-fA-F]{64}` anchored on both
sides. -/
def hex64 (l : List Char) : Bool :=
  l.length == 64 && l.all isHexChar

/-- Embedding of the private-key test `/^(0x)?[0-9a-fA-F]{64}$/.test(s)`
(line 84): either the whole string is 64 hex characters, or it starts with
`0x` and the remainder is 64 hex characters. -/
def matchesPrivateKeyRegex (s : String) : Bool :=
  hex64 s.data || (listStartsWith s.data ['0', 'x'] && hex64 (s.data.drop 2))

/-- Embedding of the registry-address test `/^0x[0-9a-fA-F]{40}$/.test(s)`
(line 92): the string starts with `0x` and the remainder is 40 hex
characters. -/
def matchesAddressRegex (s : String) : Bool :=
  listStartsWith s.data ['0', 'x'] &&
    ((s.data.drop 2).length == 40 && (s.data.drop 2).all isHexChar)

/-- Normalization of the accepted private key (line 102):
`privateKey.startsWith('0x') ? privateKey : 0x + privateKey`. -/
def normalizePrivateKey (s : String) : String :=
  if strStarts s "0x" then s else "0x" ++ s

/-- The three required environment variables, in the order the source lists
them (lines 60–64). -/
def requiredVars : List String :=
  ["RPC_URL", "PRIVATE_KEY", "SCHEMA_REGISTRY_ADDRESS"]

/-- The slice of `process.env` the registration script reads: each variable is
either set to a string or undefined. -/
structure Env where
  rpcUrl : Option String
  privateKey : Option String
  schemaRegistryAddress : Option String
deriving Repr, DecidableEq

/-- Lookup `process.env[varName]` for the three names the script reads. -/
def lookupEnv (env : Env) (name : String) : Option String :=
  if name = "RPC_URL" then env.rpcUrl
  else if name = "PRIVATE_KEY" then env.privateKey
  else if name = "SCHEMA_REGISTRY_ADDRESS" then env.schemaRegistryAddress
  else none

/-- Replace one variable of the environment slice; other names leave it
unchanged. -/
def setEnvVar (env : Env) (name : String) (val : Option String) : Env :=
  if name = "RPC_URL" then { env with rpcUrl := val }
  else if name = "PRIVATE_KEY" then { env with privateKey := val }
  else if name = "SCHEMA_REGISTRY_ADDRESS" then { env with schemaRegistryAddress := val }
  else env

/-- Configuration object returned by `validateEnvironment` on success
(lines 100–104). -/
structure Config where
  rpcUrl : String
  privateKey : String
  schemaRegistryAddress : String
deriving Repr, DecidableEq

/-- Error message thrown when required variables are missing (lines 75–79). -/
def missingMessage (missing : List String) : String :=
  "Missing required environment variables: " ++ joinComma missing ++
  "\nPlease ensure your .env file includes all required variables.\n" ++
  "See README.md for setup instructions."

/-- Error message thrown on a malformed private key (lines 85–87). -/
def privateKeyFormatMessage : String :=
  "Invalid PRIVATE_KEY format. Must be a 64-character hexadecimal string (with or without 0x prefix)."

/-- Error message thrown on a malformed registry address (lines 93–95). -/
def addressFormatMessage : String :=
  "Invalid SCHEMA_REGISTRY_ADDRESS format. Must be a valid Ethereum address."

/-- Embedding of `validateEnvironment` (lines 57–105): collect the required
variables that are falsy and throw a message naming all of them; otherwise
check the private-key format, then the registry-address format; on success
return the configuration with the private key normalized to carry the `0x`
prefix. -/
def validateEnvironment (env : Env) : Except String Config :=
  let missing := requiredVars.filter (fun v => ! jsTruthy (lookupEnv env v))
  if missing.length > 0 then
    Except.error (missingMessage missing)
  else
    let privateKey := (lookupEnv env "PRIVATE_KEY").getD ""
    if ! matchesPrivateKeyRegex privateKey then
      Except.error privateKeyFormatMessage
    else
      let registryAddress := (lookupEnv env "SCHEMA_REGISTRY_ADDRESS").getD ""
      if ! matchesAddressRegex registryAddress then
        Except.error addressFormatMessage
      else
        Except.ok { rpcUrl := (lookupEnv env "RPC_URL").getD "",
                    privateKey := normalizePrivateKey privateKey,
                    schemaRegistryAddress := registryAddress }

/-! ## Registration script: schema submission
(src/scripts/register-schema.js, `registerSchema`, lines 158–259) -/

/-- One event log of a transaction receipt: its (possibly undefined) list of
indexed topics. -/
structure LogEntry where
  topics : Option (List String)
deriving Repr, DecidableEq

/-- A completed transaction receipt as the extraction code reads it: the
(possibly undefined) list of event logs and the two possible names of the
transaction's own identifier (`transactionHash` and `hash`, either of which
may be undefined). -/
structure Receipt where
  logs : Option (List LogEntry)
  transactionHash : Option String
  hash : Option String
deriving Repr, DecidableEq

/-- A pending-transaction handle: its hash and the receipt its `wait()`
resolves to. -/
structure Transaction where
  hash : String
  receipt : Receipt
deriving Repr, DecidableEq

/-- The two response shapes of `schemaRegistry.register` the source handles
(lines 187–208): a plain string holding the schema UID, or a
pending-transaction handle that must be waited on. -/
inductive RegistryResponse where
  | direct (uid : String)
  | pending (tx : Transaction)
deriving Repr, DecidableEq

/-- The guarded extraction condition of lines 213–214: the receipt has a
first log whose topics list has a second entry; `some` of that entry when so,
`none` otherwise. -/
def firstLogSecondTopic (receipt : Receipt) : Option String :=
  match receipt.logs with
  | some (l0 :: _) =>
      match l0.topics with
      | some ts => ts[1]?
      | none => none
  | _ => none

/-- Schema-UID extraction from a completed receipt (lines 212–219): the first
log's second topic when present, otherwise the fallback
`receipt.transactionHash || receipt.hash`. -/
def extractSchemaUID (receipt : Receipt) : Option String :=
  match firstLogSecondTopic receipt with
  | some t => some t
  | none => jsOrStr receipt.transactionHash receipt.hash

/-- Handling of a registry response (lines 187–233): the returned schema UID
(possibly undefined, on a degenerate receipt) paired with whether
`transaction.wait()` was performed. A plain-string response is returned
unchanged with no wait; a pending handle is waited on and the UID extracted
from its receipt. -/
def processRegistryResponse : RegistryResponse → Option String × Bool
  | RegistryResponse.direct uid => (some uid, false)
  | RegistryResponse.pending tx => (extractSchemaUID tx.receipt, true)

/-- The fields of a thrown submission error the catch block of
`registerSchema` reads: its `code` and its `message`, either possibly
undefined. -/
structure JsError where
  code : Option String
  message : Option String
deriving Repr, DecidableEq

/-- User-facing message for an insufficient-funds failure (lines 236–241). -/
def insufficientFundsMessage : String :=
  "Insufficient funds to pay for gas.\n" ++
  "Get Base Sepolia testnet ETH from: https://www.coinbase.com/faucets/base-ethereum-sepolia-faucet"

/-- User-facing message for a stale or conflicting nonce (lines 243–247). -/
def nonceIssueMessage : String :=
  "Transaction nonce issue. Please try again in a few moments."

/-- User-facing message for a schema that already exists (lines 249–254). -/
def duplicateSchemaMessage : String :=
  "Schema already exists. This schema may have been registered previously.\n" ++
  "Check your transaction history or use the existing schema UID."

/-- Embedding of the catch block of `registerSchema` (lines 234–258): the
message of the error re-thrown for a submission failure. The branches are
tested in source order: the `INSUFFICIENT_FUNDS` code, then the two nonce
codes, then the substring test `error.message && error.message.includes('already exists')`,
and finally the generic wrapper interpolating the original message. -/
def classifyRegistrationError (e : JsError) : String :=
  if e.code = some "INSUFFICIENT_FUNDS" then
    insufficientFundsMessage
  else if e.code = some "NONCE_EXPIRED" ∨ e.code = some "REPLACEMENT_UNDERPRICED" then
    nonceIssueMessage
  else if jsTruthy e.message && strIncludes (jsInterpolate e.message) "already exists" then
    duplicateSchemaMessage
  else
    "Schema registration failed: " ++ jsInterpolate e.message

/-- Outcome of the `schemaRegistry.register` call inside the try block: a
registry response, or a thrown error caught by the catch block. -/
inductive RegisterAttempt where
  | response (r : RegistryResponse)
  | failure (e : JsError)
deriving Repr, DecidableEq

/-- Embedding of `registerSchema` (lines 158–259) given the outcome of the
registry call: a successful attempt yields the extracted schema UID, a failed
one re-throws the classified error message. -/
def registerSchemaRun : RegisterAttempt → Except String (Option String)
  | RegisterAttempt.response r => Except.ok (processRegistryResponse r).1
  | RegisterAttempt.failure e => Except.error (classifyRegistrationError e)

/-! ## Registration script: main (lines 264–298) -/

/-- Embedding of `main` (lines 264–298): the process exit code. The three
steps run in sequence inside one try block; the first thrown error reaches
the catch block, which prints and exits with code 1; if all three succeed the
process exits with code 0. The connection step's outcome is passed in as an
`Except` (its success value is irrelevant here), the registry call's outcome
as a `RegisterAttempt`. -/
def runMain (env : Env) (conn : Except String Unit) (att : RegisterAttempt) : Nat :=
  match validateEnvironment env with
  | Except.error _ => 1
  | Except.ok _ =>
      match conn with
      | Except.error _ => 1
      | Except.ok _ =>
          match registerSchemaRun att with
          | Except.error _ => 1
          | Except.ok _ => 0

/-! ## Specification-side predicate for the credential claim -/

/-- Modelled from the spec's words for the credential rule (claim C5): the
string consists of exactly 64 hexadecimal characters, with an optional `0x`
prefix. To be compared with the source-derived `matchesPrivateKeyRegex`. -/
def credentialSpecAccepts (s : String) : Prop :=
  ∃ t : List Char,
    (s.data = t ∨ s.data = '0' :: 'x' :: t) ∧
    t.length = 64 ∧ ∀ c ∈ t, isHexChar c = true

/-! ## Helper lemmas about the string primitives -/

theorem listStartsWith_nilPat (s : List Char) : listStartsWith s [] = true := by
  cases s <;> rfl

theorem listStartsWith_append (w b : List Char) : listStartsWith (w ++ b) w = true := by
  induction w with
  | nil => exact listStartsWith_nilPat b
  | cons a as ih => simp [listStartsWith, ih]

theorem listHasSub_nilPat (s : List Char) : listHasSub s [] = true := by
  cases s with
  | nil => rfl
  | cons c rest => simp [listHasSub, listStartsWith_nilPat]

theorem listHasSub_self_append (w b : List Char) : listHasSub (w ++ b) w = true := by
  cases w with
  | nil => exact listHasSub_nilPat b
  | cons d ws => simp [listHasSub, listStartsWith, listStartsWith_append]

theorem listHasSub_middle (a w b : List Char) : listHasSub (a ++ (w ++ b)) w = true := by
  induction a with
  | nil => simpa using listHasSub_self_append w b
  | cons c as ih => simp [listHasSub, ih]

theorem strData_append (a b : String) : (a ++ b).data = a.data ++ b.data := rfl

theorem strIncludes_decomp (s w : String) (a b : List Char)
    (h : s.data = a ++ (w.data ++ b)) : strIncludes s w = true := by
  unfold strIncludes
  rw [h]
  exact listHasSub_middle a w.data b

theorem joinComma_mem_decomp (l : List String) (w : String) (hw : w ∈ l) :
    ∃ a b : List Char, (joinComma l).data = a ++ (w.data ++ b) := by
  induction l with
  | nil => cases hw
  | cons s rest ih =>
      rcases List.mem_cons.mp hw with h | h
      · subst h
        cases rest with
        | nil => exact ⟨[], [], by simp [joinComma]⟩
        | cons t ts =>
            refine ⟨[], (", " ++ joinComma (t :: ts)).data, ?_⟩
            simp [joinComma, strData_append]
      · cases rest with
        | nil => cases h
        | cons t ts =>
            obtain ⟨a, b, hab⟩ := ih h
            refine ⟨(s ++ ", ").data ++ a, b, ?_⟩
            simp [joinComma, strData_append, hab, List.append_assoc]

theorem missingMessage_includes {l : List String} {w : String} (hw : w ∈ l) :
    strIncludes (missingMessage l) w = true := by
  obtain ⟨a, b, hab⟩ := joinComma_mem_decomp l w hw
  refine strIncludes_decomp _ _ ("Missing required environment variables: ".data ++ a)
      (b ++ ("\nPlease ensure your .env file includes all required variables.\n" ++
        "See README.md for setup instructions.").data) ?_
  simp [missingMessage, strData_append, hab, List.append_assoc]

theorem missingMessage_startsWith (l : List String) :
    listStartsWith (missingMessage l).data "Missing required environment variables: ".data = true := by
  have h : (missingMessage l).data =
      "Missing required environment variables: ".data ++
        (joinComma l ++ ("\nPlease ensure your .env file includes all required variables.\n" ++
          "See README.md for setup instructions.")).data := by
    simp [missingMessage, strData_append, List.append_assoc]
  rw [h]
  exact listStartsWith_append _ _

theorem startsWith0x_shape : ∀ l : List Char,
    listStartsWith l ['0', 'x'] = true → l = '0' :: 'x' :: l.drop 2
  | [], h => by simp [listStartsWith] at h
  | [a], h => by simp [listStartsWith] at h
  | a :: b :: rest, h => by
      simp only [listStartsWith] at h
      by_cases ha : a = '0'
      · by_cases hb : b = 'x'
        · subst ha; subst hb; rfl
        · rw [if_pos ha, if_neg hb] at h; exact Bool.noConfusion h
      · rw [if_neg ha] at h; exact Bool.noConfusion h

theorem normalizePrivateKey_startsWith (s : String) :
    strStarts (normalizePrivateKey s) "0x" = true := by
  unfold normalizePrivateKey
  cases h : strStarts s "0x" with
  | true => simp [h]
  | false =>
      rw [if_neg (by simp [h])]
      unfold strStarts
      rw [strData_append]
      exact listStartsWith_append _ _

/-! ## Helper lemmas about environment validation -/

theorem validateEnvironment_missing_error (env : Env)
    (h : (requiredVars.filter (fun v => ! jsTruthy (lookupEnv env v))).length > 0) :
    validateEnvironment env =
      Except.error (missingMessage
        (requiredVars.filter (fun v => ! jsTruthy (lookupEnv env v)))) := by
  unfold validateEnvironment
  simp only [if_pos h]

theorem lookupEnv_setEnvVar_self (env : Env) (v : String) (x : Option String)
    (hv : v ∈ requiredVars) : lookupEnv (setEnvVar env v x) v = x := by
  simp only [requiredVars, List.mem_cons, List.not_mem_nil, or_false] at hv
  rcases hv with h | h | h <;> subst h <;> rfl

theorem lookupEnv_setEnvVar_other (env : Env) (v w : String) (x : Option String)
    (hv : v ∈ requiredVars) (hne : w ≠ v) :
    lookupEnv (setEnvVar env v x) w = lookupEnv env w := by
  simp only [requiredVars, List.mem_cons, List.not_mem_nil, or_false] at hv
  rcases hv with h | h | h <;> subst h <;> simp [lookupEnv, setEnvVar, hne]

/-! ## Theorems about the server module -/

/-- C3: for every request to the liveness route, if the database connectivity
check resolves `true` the response has status 200 and `database = "connected"`;
if the check throws, the response has status 503 and `status = "unhealthy"`. -/
theorem healthHandler_status_contract (now : String) (e : String) :
    (healthHandler now (Except.ok true)).status = 200 ∧
    (healthHandler now (Except.ok true)).body.database = "connected" ∧
    (healthHandler now (Except.error e)).status = 503 ∧
    (healthHandler now (Except.error e)).body.status = "unhealthy" := by
  refine ⟨rfl, rfl, rfl, rfl⟩

/-- C9: a connectivity check that resolves `false` (rather than throwing) is
not treated as unhealthy: the response has status 200 with
`status = "healthy"` and `database = "disconnected"`. -/
theorem healthHandler_disconnected_still_healthy (now : String) :
    (healthHandler now (Except.ok false)).status = 200 ∧
    (healthHandler now (Except.ok false)).body.status = "healthy" ∧
    (healthHandler now (Except.ok false)).body.database = "disconnected" := by
  refine ⟨rfl, rfl, rfl⟩

/-- C2: the SIGTERM handler of the server module does not execute without
error: its body evaluates the identifier `server`, which is bound nowhere in
the module (the result of `app.listen` is never captured), so the handler
raises a ReferenceError instead of closing the listener. This theorem
evaluates the modelled handler at the failing input (delivery of SIGTERM). -/
theorem sigtermHandler_raises_referenceError :
    sigtermHandlerRun = Except.error "ReferenceError: server is not defined" := by
  rfl

/-! ## Theorems about environment validation -/

/-- C6: when one or more required settings is absent from the environment,
validation fails with a configuration error whose message names every absent
setting, not only the first one found. -/
theorem validateEnvironment_names_all_missing (env : Env) (v : String)
    (hv : v ∈ requiredVars) (habs : lookupEnv env v = none) :
    ∃ msg, validateEnvironment env = Except.error msg ∧
      ∀ w ∈ requiredVars, lookupEnv env w = none → strIncludes msg w = true := by
  have hvm : v ∈ requiredVars.filter (fun x => ! jsTruthy (lookupEnv env x)) := by
    refine List.mem_filter.mpr ⟨hv, ?_⟩
    rw [habs]
    rfl
  have hlen : (requiredVars.filter (fun x => ! jsTruthy (lookupEnv env x))).length > 0 :=
    List.length_pos.mpr (List.ne_nil_of_mem hvm)
  refine ⟨_, validateEnvironment_missing_error env hlen, ?_⟩
  intro w hw hwabs
  have hwm : w ∈ requiredVars.filter (fun x => ! jsTruthy (lookupEnv env x)) := by
    refine List.mem_filter.mpr ⟨hw, ?_⟩
    rw [hwabs]
    rfl
  exact missingMessage_includes hwm

/-- Witness for C6 at a concrete environment missing both the endpoint and the
credential. -/
theorem validateEnvironment_names_all_missing_witness :
    ∃ msg, validateEnvironment
        { rpcUrl := none, privateKey := none,
          schemaRegistryAddress := some "0x4200000000000000000000000000000000000020" } =
        Except.error msg ∧
      ∀ w ∈ requiredVars,
        lookupEnv
            { rpcUrl := none, privateKey := none,
              schemaRegistryAddress := some "0x4200000000000000000000000000000000000020" } w =
          none →
        strIncludes msg w = true :=
  validateEnvironment_names_all_missing _ "RPC_URL" (by decide) rfl

/-- C10: a required setting whose value is the empty string is treated exactly
like an absent one: validation behaves identically to the environment with the
setting removed, and it fails with the missing-settings configuration error
(which names the setting), so the empty value never reaches the
format-validation step. -/
theorem validateEnvironment_empty_like_absent (env : Env) (v : String)
    (hv : v ∈ requiredVars) (hempty : lookupEnv env v = some "") :
    validateEnvironment env = validateEnvironment (setEnvVar env v none) ∧
    ∃ msg, validateEnvironment env = Except.error msg ∧ strIncludes msg v = true ∧
      listStartsWith msg.data "Missing required environment variables: ".data = true := by
  have hvm : v ∈ requiredVars.filter (fun x => ! jsTruthy (lookupEnv env x)) := by
    refine List.mem_filter.mpr ⟨hv, ?_⟩
    rw [hempty]
    rfl
  have hlen : (requiredVars.filter (fun x => ! jsTruthy (lookupEnv env x))).length > 0 :=
    List.length_pos.mpr (List.ne_nil_of_mem hvm)
  have herr := validateEnvironment_missing_error env hlen
  have hsame : ∀ w ∈ requiredVars,
      (! jsTruthy (lookupEnv env w)) = (! jsTruthy (lookupEnv (setEnvVar env v none) w)) := by
    intro w hw
    by_cases hwv : w = v
    · subst hwv
      rw [hempty, lookupEnv_setEnvVar_self env w none hw]
      rfl
    · rw [lookupEnv_setEnvVar_other env v w none hv hwv]
  have hfiltereq : requiredVars.filter (fun x => ! jsTruthy (lookupEnv env x)) =
      requiredVars.filter (fun x => ! jsTruthy (lookupEnv (setEnvVar env v none) x)) :=
    List.filter_congr hsame
  have hlen2 : (requiredVars.filter
      (fun x => ! jsTruthy (lookupEnv (setEnvVar env v none) x))).length > 0 := by
    rw [← hfiltereq]
    exact hlen
  have herr2 := validateEnvironment_missing_error (setEnvVar env v none) hlen2
  refine ⟨?_, _, herr, missingMessage_includes hvm, missingMessage_startsWith _⟩
  rw [herr, herr2, hfiltereq]

/-- Witness for C10 at a concrete environment whose endpoint is the empty
string. -/
theorem validateEnvironment_empty_like_absent_witness :
    validateEnvironment
        { rpcUrl := some "", privateKey := some "ab", schemaRegistryAddress := some "0x1" } =
      validateEnvironment
        (setEnvVar
          { rpcUrl := some "", privateKey := some "ab", schemaRegistryAddress := some "0x1" }
          "RPC_URL" none) ∧
    ∃ msg, validateEnvironment
        { rpcUrl := some "", privateKey := some "ab", schemaRegistryAddress := some "0x1" } =
        Except.error msg ∧ strIncludes msg "RPC_URL" = true ∧
      listStartsWith msg.data "Missing required environment variables: ".data = true :=
  validateEnvironment_empty_like_absent _ "RPC_URL" (by decide) rfl

/-- C5: configuration validation accepts a credential string iff it consists
of exactly 64 hexadecimal characters with an optional `0x` prefix
(comparison of the source-derived `matchesPrivateKeyRegex` with the
spec-worded `credentialSpecAccepts`); and every accepted credential is
normalized to carry the `0x` prefix — the prefix is added when absent and
the string is otherwise unchanged — which is also what the returned
configuration holds. -/
theorem credential_accept_iff_and_normalize (s : String) :
    (matchesPrivateKeyRegex s = true ↔ credentialSpecAccepts s) ∧
    (matchesPrivateKeyRegex s = true →
      strStarts (normalizePrivateKey s) "0x" = true ∧
      (strStarts s "0x" = true → normalizePrivateKey s = s) ∧
      (strStarts s "0x" = false → normalizePrivateKey s = "0x" ++ s)) ∧
    (∀ env c, validateEnvironment env = Except.ok c →
      strStarts c.privateKey "0x" = true) := by
  refine ⟨⟨?_, ?_⟩, ?_, ?_⟩
  · intro h
    simp only [matchesPrivateKeyRegex, Bool.or_eq_true, Bool.and_eq_true] at h
    rcases h with hA | ⟨hpre, hhex⟩
    · simp only [hex64, Bool.and_eq_true, beq_iff_eq, List.all_eq_true] at hA
      exact ⟨s.data, Or.inl rfl, hA.1, hA.2⟩
    · have hshape := startsWith0x_shape s.data hpre
      simp only [hex64, Bool.and_eq_true, beq_iff_eq, List.all_eq_true] at hhex
      exact ⟨s.data.drop 2, Or.inr hshape, hhex.1, hhex.2⟩
  · rintro ⟨t, hd | hd, hlen, hall⟩
    · simp only [matchesPrivateKeyRegex, Bool.or_eq_true, Bool.and_eq_true]
      refine Or.inl ?_
      simp only [hex64, hd, Bool.and_eq_true, beq_iff_eq, List.all_eq_true]
      exact ⟨hlen, hall⟩
    · simp only [matchesPrivateKeyRegex, Bool.or_eq_true, Bool.and_eq_true]
      refine Or.inr ⟨?_, ?_⟩
      · rw [hd]
        simp [listStartsWith, listStartsWith_nilPat]
      · rw [hd]
        show hex64 t = true
        simp only [hex64, Bool.and_eq_true, beq_iff_eq, List.all_eq_true]
        exact ⟨hlen, hall⟩
  · intro _
    refine ⟨normalizePrivateKey_startsWith s, ?_, ?_⟩
    · intro h
      unfold normalizePrivateKey
      rw [if_pos h]
    · intro h
      unfold normalizePrivateKey
      rw [if_neg (by simp [h])]
  · intro env c h
    simp only [validateEnvironment] at h
    split at h
    · exact Except.noConfusion h
    · split at h
      · exact Except.noConfusion h
      · split at h
        · exact Except.noConfusion h
        · cases h
          exact normalizePrivateKey_startsWith _

/-- C7: a registry response that is a plain string is returned unchanged as
the identifier, with no wait-for-completion step, and the operation
succeeds. -/
theorem direct_response_returned_unchanged (uid : String) :
    (processRegistryResponse (RegistryResponse.direct uid)).1 = some uid ∧
    (processRegistryResponse (RegistryResponse.direct uid)).2 = false ∧
    registerSchemaRun (RegisterAttempt.response (RegistryResponse.direct uid)) =
      Except.ok (some uid) := by
  refine ⟨rfl, rfl, rfl⟩

/-- C4: a pending-transaction response is waited on; when the completed
receipt has a first log with a second topic, that topic is returned as the
identifier; when it has no such log or topic, the transaction's own
identifier (`transactionHash || hash`) is returned instead, and the
operation still succeeds (it returns `Except.ok`, it does not raise). -/
theorem pending_response_waits_and_extracts (tx : Transaction) :
    (processRegistryResponse (RegistryResponse.pending tx)).2 = true ∧
    (∀ l0 rest ts t1, tx.receipt.logs = some (l0 :: rest) → l0.topics = some ts →
        ts[1]? = some t1 →
        registerSchemaRun (RegisterAttempt.response (RegistryResponse.pending tx)) =
          Except.ok (some t1)) ∧
    (firstLogSecondTopic tx.receipt = none →
        registerSchemaRun (RegisterAttempt.response (RegistryResponse.pending tx)) =
          Except.ok (jsOrStr tx.receipt.transactionHash tx.receipt.hash)) := by
  refine ⟨rfl, ?_, ?_⟩
  · intro l0 rest ts t1 hlogs htopics hget
    simp [registerSchemaRun, processRegistryResponse, extractSchemaUID,
      firstLogSecondTopic, hlogs, htopics, hget]
  · intro hnone
    simp [registerSchemaRun, processRegistryResponse, extractSchemaUID, hnone]

/-- C8: the registration workflow's exit code is 0 exactly when validation,
connection and submission all succeed, and 1 otherwise — any validation,
connection or submission failure is terminal for the process. -/
theorem mainExitCode_contract (env : Env) (conn : Except String Unit)
    (att : RegisterAttempt) :
    (runMain env conn att = 0 ∨ runMain env conn att = 1) ∧
    (runMain env conn att = 0 ↔
      ((∃ c, validateEnvironment env = Except.ok c) ∧ conn = Except.ok () ∧
        ∃ u, registerSchemaRun att = Except.ok u)) := by
  unfold runMain
  rcases hv : validateEnvironment env with e1 | c1 <;>
    rcases hc : conn with e2 | u2 <;>
      rcases hr : registerSchemaRun att with e3 | u3 <;>
        simp [hv, hc, hr]

/-- C1 counterexample: a submission error whose message contains
"already exists" but whose code is `INSUFFICIENT_FUNDS` is mapped to the
insufficient-funds message, not to the duplicate-schema message: the claim's
"regardless of its error code" fails on the code. -/
theorem already_exists_with_code_counterexample :
    strIncludes "insufficient funds for gas: schema already exists" "already exists" = true ∧
    classifyRegistrationError
        { code := some "INSUFFICIENT_FUNDS",
          message := some "insufficient funds for gas: schema already exists" } ≠
      duplicateSchemaMessage := by
  constructor
  · rfl
  · decide

/-- C1 amended: a submission error whose message contains "already exists"
and whose code is none of the three codes tested earlier by the catch block
(`INSUFFICIENT_FUNDS`, `NONCE_EXPIRED`, `REPLACEMENT_UNDERPRICED`) is mapped
to the duplicate-schema message, regardless of its other fields. -/
theorem already_exists_maps_to_duplicate (e : JsError)
    (h1 : e.code ≠ some "INSUFFICIENT_FUNDS")
    (h2 : e.code ≠ some "NONCE_EXPIRED")
    (h3 : e.code ≠ some "REPLACEMENT_UNDERPRICED")
    (m : String) (hm : e.message = some m)
    (hsub : strIncludes m "already exists" = true) :
    classifyRegistrationError e = duplicateSchemaMessage := by
  have hne : m ≠ "" := by
    intro h0
    rw [h0] at hsub
    exact absurd hsub (by decide)
  have hcond : (jsTruthy e.message &&
      strIncludes (jsInterpolate e.message) "already exists") = true := by
    rw [hm]
    simp [jsTruthy, jsInterpolate, hsub, hne]
  unfold classifyRegistrationError
  rw [if_neg h1, if_neg (not_or.mpr ⟨h2, h3⟩), if_pos hcond]

/-- Witness for the amended C1 at a concrete error with no code. -/
theorem already_exists_maps_to_duplicate_witness :
    classifyRegistrationError
        { code := none, message := some "schema already exists" } =
      duplicateSchemaMessage :=
  already_exists_maps_to_duplicate
    { code := none, message := some "schema already exists" }
    (by simp) (by simp) (by simp) "schema already exists" rfl (by rfl)
